import Mathlib

/-
Shallow embedding of the core of the homie peer-to-peer compute fabric
(package `homie`): job serialization and authentication (jobs.py), the TCP
worker's request handlers (worker.py), the container executor's launch
arguments (container.py), peer liveness (discovery.py), and the job history
log (history.py).

Modelling conventions:
- Python `bytes` are lists of naturals below 256; byte values relevant to the
  properties are carried verbatim (the base64/JSON wire transport composed of
  `b64encode`/`b64decode` and `json.dumps`/`json.loads` is a bijection on the
  structured payload, so payloads are modelled as records holding the decoded
  field values, mirroring the dict literals in `serialize_job`).
- Wall-clock timestamps (`time.time()` floats) are modelled as integer
  seconds; every use in the source is a comparison or a subtraction.
- HMAC-SHA256 (`hmac.new(key, msg, sha256).hexdigest()`) is a primitive of
  the Python standard library, outside the translated code; it is passed in
  as an explicit function parameter `hmacF : String → String → String`
  (key, then message). `hmac.compare_digest` is string equality.
- Python dicts are association lists with unique keys, in insertion order.
-/

namespace Homie

/-- Python `bytes`: a list of byte values. -/
abbrev Bytes := List Nat

/-- jobs.py, `@dataclass class Job` (lines 15-26): exactly the fields
job_id, sender, filename, code, args, files, require_gpu, timestamp.
The dataclass declares no `image` field. -/
structure Job where
  job_id : String
  sender : String
  filename : String
  code : Bytes
  args : List String
  files : List (String × Bytes)
  require_gpu : Bool
  timestamp : Int
  deriving DecidableEq, Repr

/-- jobs.py, `@dataclass class JobResult` (lines 29-39). -/
structure JobResult where
  job_id : String
  exit_code : Int
  stdout : String
  stderr : String
  output_files : List (String × Bytes) := []
  runtime_seconds : Int := 0
  error : Option String := none
  deriving DecidableEq, Repr

/-- Attribute names of the `Job` dataclass in jobs.py: a Python instance of
`Job` has exactly these attributes; reading any other name (such as
`job.image` in container.py lines 109/245 and worker.py line 307) raises
`AttributeError`. -/
def jobAttrNames : List String :=
  ["job_id", "sender", "filename", "code", "args", "files", "require_gpu", "timestamp"]

/-- Python attribute presence for `Job` values (dataclass instances carry
exactly the declared fields). -/
def jobHasAttr (a : String) : Bool :=
  jobAttrNames.contains a

/-- jobs.py line 82: the authenticated message `f"{job_id}:{timestamp}"`. -/
def auth_message (job_id : String) (ts : Int) : String :=
  job_id ++ ":" ++ toString ts

/-- jobs.py `compute_auth_hmac` (lines 80-83): HMAC of the group secret over
`"{job_id}:{timestamp}"`. -/
def compute_auth_hmac (hmacF : String → String → String)
    (job_id : String) (ts : Int) (group_secret : String) : String :=
  hmacF group_secret (auth_message job_id ts)

/-- jobs.py `verify_auth_hmac` (lines 86-91): recompute and compare
(`hmac.compare_digest` is equality of the two digest strings). -/
def verify_auth_hmac (hmacF : String → String → String)
    (job_id : String) (ts : Int) (provided_hmac : String) (group_secret : String) : Bool :=
  decide (compute_auth_hmac hmacF job_id ts group_secret = provided_hmac)

/-- The `"auth"` sub-dict of the serialized payload (jobs.py lines 109-111). -/
structure AuthEnvelope where
  hmac : String
  deriving DecidableEq, Repr

/-- The serialized job payload built by `serialize_job` (jobs.py lines
98-112): the `"job"` dict holding the eight job fields (code and file
contents carried through the bijective base64 transport) together with the
`"auth"` envelope. -/
structure JobPayload where
  job_id : String
  sender : String
  filename : String
  code : Bytes
  args : List String
  files : List (String × Bytes)
  require_gpu : Bool
  timestamp : Int
  auth : AuthEnvelope
  deriving DecidableEq, Repr

/-- The keys of the `"job"` dict literal in `serialize_job` (jobs.py lines
99-108); `"image"` is not among them, so a serialized job carries no image. -/
def jobPayloadKeys : List String :=
  ["job_id", "sender", "filename", "code", "args", "files", "require_gpu", "timestamp"]

/-- jobs.py `serialize_job` (lines 94-113). -/
def serialize_job (hmacF : String → String → String) (job : Job) (group_secret : String) :
    JobPayload :=
  { job_id := job.job_id
    sender := job.sender
    filename := job.filename
    code := job.code
    args := job.args
    files := job.files
    require_gpu := job.require_gpu
    timestamp := job.timestamp
    auth := { hmac := compute_auth_hmac hmacF job.job_id job.timestamp group_secret } }

/-- jobs.py `deserialize_job` (lines 116-145): verify the HMAC, check
timestamp freshness (`abs(time.time() - ts) > 300` rejects), then rebuild the
Job. `now` is the deserializer's clock. -/
def deserialize_job (hmacF : String → String → String) (p : JobPayload)
    (group_secret : String) (now : Int) : Except String Job :=
  if verify_auth_hmac hmacF p.job_id p.timestamp p.auth.hmac group_secret = false then
    .error "Job authentication failed - invalid HMAC"
  else if 300 < |now - p.timestamp| then
    .error "Job authentication failed - timestamp too old"
  else
    .ok { job_id := p.job_id
          sender := p.sender
          filename := p.filename
          code := p.code
          args := p.args
          files := p.files
          require_gpu := p.require_gpu
          timestamp := p.timestamp }

/-- A concrete stand-in for the HMAC primitive, used to instantiate the
parametric theorems on concrete inputs. -/
def hmacDemo (key msg : String) : String :=
  key ++ "|" ++ msg

/-- A concrete job used to instantiate the parametric theorems. -/
def jobDemo : Job :=
  { job_id := "ab12cd34"
    sender := "alice"
    filename := "e.py"
    code := [104, 105]
    args := ["x"]
    files := [("d.txt", [52, 50])]
    require_gpu := false
    timestamp := 100 }

/-- worker.py, `@dataclass class RunningJob` (lines 16-22; the thread handle
is irrelevant to the properties). -/
structure RunningJob where
  job : Job
  start_time : Int
  deriving DecidableEq, Repr

/-- The fields of the kill payload read by `_handle_kill_request`
(worker.py lines 185-189): `job_id`, `requester`, `auth.hmac`,
`auth.timestamp`. -/
structure KillRequest where
  job_id : String
  requester : String
  auth_hmac : String
  timestamp : Int
  deriving DecidableEq, Repr

/-- worker.py `_handle_kill_request` (lines 172-221) on a well-formed
payload. Returns the reply byte written to the connection, paired with
whether a kill was issued to the executor (`self._executor.kill_job` called).
`running` is the `_running_jobs` dict, `killOk job_id` the outcome of
`executor.kill_job(job_id)`, `now` the worker's clock. -/
def handle_kill_request (hmacF : String → String → String) (group_secret : String)
    (now : Int) (running : List (String × RunningJob)) (killOk : String → Bool)
    (req : KillRequest) : Char × Bool :=
  if verify_auth_hmac hmacF req.job_id req.timestamp req.auth_hmac group_secret = false then
    ('0', false)
  else if 300 < |now - req.timestamp| then
    ('0', false)
  else
    match List.lookup req.job_id running with
    | none => ('0', false)
    | some running_job =>
      if req.requester ≠ running_job.job.sender then
        ('0', false)
      else
        (if killOk req.job_id then '1' else '0', true)

/-- The fields of the list payload read by `_handle_list_request`
(worker.py lines 236-238). -/
structure ListRequest where
  auth_hmac : String
  timestamp : Int
  deriving DecidableEq, Repr

/-- One element of the `jobs` array in the list response (worker.py lines
250-255). -/
structure JobInfo where
  job_id : String
  sender : String
  filename : String
  start_time : Int
  deriving DecidableEq, Repr

/-- The list response: the single byte `'0'`, or the byte `'1'` followed by
the length-prefixed JSON listing. -/
inductive ListReply where
  | denied
  | listing (jobs : List JobInfo)
  deriving DecidableEq, Repr

/-- worker.py `_handle_list_request` (lines 223-264) on a well-formed
payload. `now` is the worker's clock; note that the handler never consults
it — unlike the kill handler there is no timestamp-freshness check between
the HMAC verification (line 242) and the response (lines 247-261). -/
def handle_list_request (hmacF : String → String → String) (group_secret : String)
    (now : Int) (running : List (String × RunningJob)) (req : ListRequest) : ListReply :=
  if verify_auth_hmac hmacF "list" req.timestamp req.auth_hmac group_secret = false then
    .denied
  else
    .listing (running.map fun kv =>
      { job_id := kv.1
        sender := kv.2.job.sender
        filename := kv.2.job.filename
        start_time := kv.2.start_time })

/-- container.py, `@dataclass class OutputChunk` (lines 18-22). -/
structure OutputChunk where
  stream : String
  data : String
  deriving DecidableEq, Repr

/-- One framed message written on a `'J'` connection.
`output k d` is a kind byte `k` (`'O'` or `'E'`), a 4-byte big-endian
length, and the data (worker.py lines 318-326). `resultFramed r` is the kind
byte `'R'`, a 4-byte length, and the JSON result (lines 166-170).
`resultBare r` is a 4-byte length and the JSON result with NO kind byte —
the shape `_send_error` writes (lines 280-291). -/
inductive OutFrame where
  | output (kind : Char) (data : String)
  | resultFramed (r : JobResult)
  | resultBare (r : JobResult)
  deriving DecidableEq, Repr

/-- Whether a frame begins with the result kind byte `'R'`. -/
def OutFrame.beginsWithR : OutFrame → Bool
  | .resultFramed _ => true
  | _ => false

/-- The error `JobResult` built by `_send_error` (worker.py lines 282-288). -/
def error_result (message : String) : JobResult :=
  { job_id := "error"
    exit_code := -1
    stdout := ""
    stderr := ""
    error := some message }

/-- worker.py `_send_error` (lines 280-291): a single length-prefixed
serialized error result, written without any kind byte. -/
def send_error (message : String) : List OutFrame :=
  [.resultBare (error_result message)]

/-- worker.py `send_output_chunk` (lines 318-326): kind byte `'O'` for
stdout, `'E'` otherwise, then length-prefixed data. -/
def chunk_frame (c : OutputChunk) : OutFrame :=
  .output (if c.stream = "stdout" then 'O' else 'E') c.data

/-- worker.py `_handle_job_submission` (lines 139-170): the frames written
on a `'J'` connection. `length` is the received 4-byte length prefix; the
payload is rejected above 100 MiB (line 148). On successful
deserialization the job runs (`_execute_job_streaming`, abstracted by
`execJob`, which yields the final result and the output chunks passed to
the streaming callback in order), each chunk is framed as it is observed,
and the final result is written as the `'R'` frame (lines 166-170). -/
def handle_job_submission (hmacF : String → String → String) (group_secret : String)
    (now : Int) (length : Nat) (p : JobPayload)
    (execJob : Job → JobResult × List OutputChunk) : List OutFrame :=
  if 100 * 1024 * 1024 < length then
    send_error "Job payload too large"
  else
    match deserialize_job hmacF p group_secret now with
    | .error e => send_error e
    | .ok job =>
      let r := execJob job
      r.2.map chunk_frame ++ [.resultFramed r.1]

/-- container.py, `@dataclass class ContainerConfig` (lines 25-33), with the
source's defaults. -/
structure ContainerConfig where
  cpu_limit : Rat := 2
  memory_limit : String := "4g"
  timeout : Int := 600
  network_mode : String := "none"
  pids_limit : Nat := 100
  deriving DecidableEq, Repr

/-- Python `int()` on a rational: truncation toward zero. -/
def py_int (q : Rat) : Int :=
  if 0 ≤ q then Int.floor q else Int.ceil q

/-- The suffix of a filename from its last dot (`Path(filename).suffix` for
ordinary names with an extension; names without a dot yield `""`). -/
def file_ext (name : String) : String :=
  if name.contains '.' then "." ++ (name.splitOn ".").getLastD "" else ""

/-- container.py `_get_command` (lines 73-87): interpreter chosen by
extension, defaulting to python, with the job args appended. -/
def get_command (filename : String) (args : List String) : List String :=
  let base :=
    match (file_ext filename).toLower with
    | ".py" => ["python", filename]
    | ".js" => ["node", filename]
    | ".sh" => ["bash", filename]
    | ".rb" => ["ruby", filename]
    | ".pl" => ["perl", filename]
    | ".php" => ["php", filename]
    | _ => ["python", filename]
  base ++ args

/-- The keyword arguments of one `self.client.containers.run(...)` call.
Fields left at their defaults model the Docker daemon's defaults when the
keyword is absent from the call (no read-only root, no dropped
capabilities, no security options, container-default user, default
network, unlimited pids, no tmpfs, empty extra environment). -/
structure RunKwargs where
  image : String
  command : List String
  working_dir : Option String := none
  nano_cpus : Option Int := none
  mem_limit : Option String := none
  pids_limit : Option Nat := none
  network_mode : Option String := none
  read_only : Bool := false
  user : Option String := none
  cap_drop : Option (List String) := none
  security_opt : Option (List String) := none
  tmpfs : Option (List (String × String)) := none
  environment : List (String × String) := []
  device_requests_gpu : Bool := false
  remove : Bool := false
  deriving DecidableEq, Repr

/-- container.py `execute`, the `run_kwargs` dict (lines 114-144). `image`
is the value of `job.image` (line 109 — an attribute the `Job` dataclass
does not declare); `jobId`, `filename`, `args`, `gpu` are the job's
fields. -/
def execute_run_kwargs (cfg : ContainerConfig) (image : String) (jobId : String)
    (filename : String) (args : List String) (gpu : Bool) : RunKwargs :=
  { image := image
    command := get_command filename args
    working_dir := some "/workspace"
    nano_cpus := some (py_int (cfg.cpu_limit * 1000000000))
    mem_limit := some cfg.memory_limit
    pids_limit := some cfg.pids_limit
    network_mode := some cfg.network_mode
    read_only := true
    user := some "1000:1000"
    cap_drop := some ["ALL"]
    security_opt := some ["no-new-privileges:true"]
    tmpfs := some [("/tmp", "size=100M,mode=1777")]
    environment := [("HOMIE_JOB_ID", jobId), ("PYTHONUNBUFFERED", "1")]
    device_requests_gpu := gpu }

/-- container.py `execute_streaming`, the `run_kwargs` dict (lines 250-280):
the source repeats the same dict literal as in `execute`. -/
def execute_streaming_run_kwargs (cfg : ContainerConfig) (image : String) (jobId : String)
    (filename : String) (args : List String) (gpu : Bool) : RunKwargs :=
  { image := image
    command := get_command filename args
    working_dir := some "/workspace"
    nano_cpus := some (py_int (cfg.cpu_limit * 1000000000))
    mem_limit := some cfg.memory_limit
    pids_limit := some cfg.pids_limit
    network_mode := some cfg.network_mode
    read_only := true
    user := some "1000:1000"
    cap_drop := some ["ALL"]
    security_opt := some ["no-new-privileges:true"]
    tmpfs := some [("/tmp", "size=100M,mode=1777")]
    environment := [("HOMIE_JOB_ID", jobId), ("PYTHONUNBUFFERED", "1")]
    device_requests_gpu := gpu }

/-- container.py `has_gpu_support` (lines 60-71): the GPU-probe call to
`self.client.containers.run` passes only the image, the command, the GPU
device request and `remove=True` — none of the security keywords. -/
def gpu_probe_run_kwargs : RunKwargs :=
  { image := "nvidia/cuda:12.1-base-ubuntu22.04"
    command := ["nvidia-smi"]
    device_requests_gpu := true
    remove := true }

/-- The three `self.client.containers.run(...)` call sites in container.py:
`execute` (line 147), `execute_streaming` (line 283) and `has_gpu_support`
(line 63). These are the only places the executor starts a container. -/
def container_run_sites (cfg : ContainerConfig) (image : String) (jobId : String)
    (filename : String) (args : List String) (gpu : Bool) : List RunKwargs :=
  [execute_run_kwargs cfg image jobId filename args gpu,
   execute_streaming_run_kwargs cfg image jobId filename args gpu,
   gpu_probe_run_kwargs]

/-- The enforced constraints of the claim: configured cpu and memory
limits, the configured pids limit, read-only root filesystem, all
capabilities dropped, no-new-privileges, user 1000:1000, the configured
network mode, a tmpfs at /tmp, and HOMIE_JOB_ID in the environment. -/
def enforced_constraints (cfg : ContainerConfig) (jobId : String) (kw : RunKwargs) : Prop :=
  kw.nano_cpus = some (py_int (cfg.cpu_limit * 1000000000)) ∧
  kw.mem_limit = some cfg.memory_limit ∧
  kw.pids_limit = some cfg.pids_limit ∧
  kw.read_only = true ∧
  kw.cap_drop = some ["ALL"] ∧
  kw.security_opt = some ["no-new-privileges:true"] ∧
  kw.user = some "1000:1000" ∧
  kw.network_mode = some cfg.network_mode ∧
  kw.tmpfs = some [("/tmp", "size=100M,mode=1777")] ∧
  ("HOMIE_JOB_ID", jobId) ∈ kw.environment

/-- worker.py lines 40-47: the Worker builds its `ContainerConfig` from the
homie config's cpu, memory, timeout and network settings, leaving
`pids_limit` at its default of 100. -/
def worker_container_config (cpu : Rat) (mem : String) (tmo : Int) (net : String) :
    ContainerConfig :=
  { cpu_limit := cpu
    memory_limit := mem
    timeout := tmo
    network_mode := net }

/-- discovery.py, `@dataclass class Peer` (lines 16-29). -/
structure Peer where
  name : String
  ip : String
  port : Nat
  cpu_percent_used : Rat
  ram_free_gb : Rat
  ram_total_gb : Rat
  gpu_name : Option String
  gpu_memory_free_gb : Option Rat
  status : String
  last_seen : Int
  deriving DecidableEq, Repr

/-- discovery.py `Peer.is_alive` (lines 31-34): the threshold is the literal
`10.0`, not the configured `peer_timeout`. `now` is `time.time()`. -/
def Peer.is_alive (now : Int) (p : Peer) : Bool :=
  decide (now - p.last_seen < 10)

/-- config.py lines 36-37: the broadcast settings of `HomieConfig`, with the
source's defaults. -/
structure DiscoveryConfig where
  heartbeat_interval : Int := 2
  peer_timeout : Int := 10
  deriving DecidableEq, Repr

/-- discovery.py `get_peers` (lines 146-149): the alive peers of the
`_peers` dict. -/
def get_peers (now : Int) (peers : List (String × Peer)) : List Peer :=
  (peers.map (·.2)).filter (Peer.is_alive now)

/-- discovery.py `get_peer` (lines 151-155): the named peer if present and
alive. -/
def get_peer (now : Int) (peers : List (String × Peer)) (name : String) : Option Peer :=
  match List.lookup name peers with
  | some p => if p.is_alive now then some p else none
  | none => none

/-- One pass of the reaper, discovery.py `_cleanup_loop` (lines 301-314):
every peer for which `is_alive` is false is popped from the map. -/
def cleanup_pass (now : Int) (peers : List (String × Peer)) : List (String × Peer) :=
  peers.filter fun kv => kv.2.is_alive now

/-- history.py, `@dataclass class JobHistoryEntry` (lines 14-38). -/
structure HistoryEntry where
  job_id : String
  sender : String
  peer : String
  filename : String
  args : List String
  image : String
  require_gpu : Bool
  role : String
  start_time : Int
  end_time : Option Int := none
  runtime_seconds : Option Int := none
  exit_code : Option Int := none
  success : Option Bool := none
  error : Option String := none
  output_file_count : Nat := 0
  deriving DecidableEq, Repr

/-- history.py line 11: `MAX_HISTORY_ENTRIES = 1000`. -/
def MAX_HISTORY_ENTRIES : Nat := 1000

/-- Stable descending insertion: place `x` before the first element whose
start time is not larger, so that elements with equal keys keep their
original relative order. -/
def insertDesc (x : HistoryEntry) : List HistoryEntry → List HistoryEntry
  | [] => [x]
  | y :: ys => if y.start_time ≤ x.start_time then x :: y :: ys else y :: insertDesc x ys

/-- history.py `read_history` line 203:
`entries.sort(key=lambda e: e.start_time, reverse=True)` — Python's stable
sort, newest first; a stable insertion sort computes the same list. -/
def sortDesc : List HistoryEntry → List HistoryEntry
  | [] => []
  | x :: xs => insertDesc x (sortDesc xs)

/-- history.py `_write_history` (lines 253-261): the records written back to
the file. `entries[-MAX_HISTORY_ENTRIES:]` keeps the final
`MAX_HISTORY_ENTRIES` elements of the list it is given, i.e. drops the
leading `length - MAX_HISTORY_ENTRIES` elements. -/
def write_history (entries : List HistoryEntry) : List HistoryEntry :=
  if MAX_HISTORY_ENTRIES < entries.length then
    entries.drop (entries.length - MAX_HISTORY_ENTRIES)
  else
    entries

/-- history.py `update_job_completion` lines 135-140: the in-place mutation
of the matched entry. `now` is `time.time()` at the patch. -/
def patch_completion_fields (now : Int) (exit_code : Int) (runtime : Int)
    (error : Option String) (output_file_count : Nat) (e : HistoryEntry) : HistoryEntry :=
  { e with
    end_time := some now
    runtime_seconds := some runtime
    exit_code := some exit_code
    success := some (decide (exit_code = 0) && error.isNone)
    error := error
    output_file_count := output_file_count }

/-- Patch the first entry of the list that matches `job_id` and is still
open (`end_time is None`), returning `none` when no entry matches — the
loop of history.py lines 133-142 over the traversal order it is given. -/
def patch_first_open (job_id : String) (patch : HistoryEntry → HistoryEntry) :
    List HistoryEntry → Option (List HistoryEntry)
  | [] => none
  | e :: es =>
    if e.job_id = job_id ∧ e.end_time = none then some (patch e :: es)
    else (patch_first_open job_id patch es).map (e :: ·)

/-- history.py `update_job_completion` (lines 118-146). `file_entries` is
the file's records in file order. `read_history()` (line 129) returns them
sorted newest-first; the loop then walks `reversed(entries)` (line 133) —
oldest-first over that sorted list — patches the first open entry whose
`job_id` matches (role is not consulted), and on a match rewrites the file
with the patched list in its sorted order. Without a match the file is left
as it was. -/
def update_job_completion (now : Int) (file_entries : List HistoryEntry) (job_id : String)
    (exit_code : Int) (runtime : Int) (error : Option String) (output_file_count : Nat) :
    List HistoryEntry :=
  let entries := sortDesc file_entries
  match patch_first_open job_id
      (patch_completion_fields now exit_code runtime error output_file_count)
      entries.reverse with
  | none => file_entries
  | some patched_oldest_first => write_history patched_oldest_first.reverse

/-- A second concrete job: same job_id and timestamp as `jobDemo`, different
sender and code. -/
def jobDemo2 : Job :=
  { jobDemo with sender := "bob", code := [104] }

/-- A concrete running job: `jobDemo` (sent by "alice") running since 50. -/
def rjDemo : RunningJob :=
  { job := jobDemo, start_time := 50 }

/-- A kill request for `jobDemo` from "mallory" (not the sender) carrying a
valid HMAC and a fresh timestamp. -/
def killReqDemo : KillRequest :=
  { job_id := "ab12cd34"
    requester := "mallory"
    auth_hmac := compute_auth_hmac hmacDemo "ab12cd34" 100 "s"
    timestamp := 100 }

/-- A list request whose HMAC over `"list:0"` is valid for secret "s" but
whose timestamp 0 is far in the past. -/
def listReqStale : ListRequest :=
  { auth_hmac := compute_auth_hmac hmacDemo "list" 0 "s"
    timestamp := 0 }

/-- The serialized `jobDemo` with its auth envelope replaced by a wrong
digest. -/
def payloadBadAuth : JobPayload :=
  { serialize_job hmacDemo jobDemo "s" with auth := { hmac := "bogus" } }

/-- A concrete successful result for `jobDemo`. -/
def resultDemo : JobResult :=
  { job_id := "ab12cd34", exit_code := 0, stdout := "hi\n", stderr := "" }

/-- A concrete execution: one stdout chunk, then `resultDemo`. -/
def execDemo : Job → JobResult × List OutputChunk :=
  fun _ => (resultDemo, [{ stream := "stdout", data := "hi\n" }])

/-- A concrete peer last seen at time 0. -/
def peerStale : Peer :=
  { name := "b"
    ip := "10.0.0.2"
    port := 5556
    cpu_percent_used := 10
    ram_free_gb := 4
    ram_total_gb := 8
    gpu_name := none
    gpu_memory_free_gb := none
    status := "idle"
    last_seen := 0 }

/-- An open sender-side ("mooch") history entry for job "j1", started at 1. -/
def moochEntry : HistoryEntry :=
  { job_id := "j1"
    sender := "a"
    peer := "b"
    filename := "e.py"
    args := []
    image := "python:3.11-slim"
    require_gpu := false
    role := "mooch"
    start_time := 1 }

/-- An open executor-side ("plug") history entry for job "j1", started at 2. -/
def plugEntry : HistoryEntry :=
  { job_id := "j1"
    sender := "a"
    peer := "a"
    filename := "e.py"
    args := []
    image := "python:3.11-slim"
    require_gpu := false
    role := "plug"
    start_time := 2 }

/-- A completed history entry with the given start time. -/
def histAt (t : Int) : HistoryEntry :=
  { job_id := "x"
    sender := "a"
    peer := "b"
    filename := "e.py"
    args := []
    image := "python:3.11-slim"
    require_gpu := false
    role := "plug"
    start_time := t
    end_time := some (t + 1) }

/-- One thousand completed entries with start times 999 down to 0: together
with `histAt 1000` at the head this is the newest-first order in which
`read_history` hands records to the rewrite. -/
def oldEntries : List HistoryEntry :=
  (List.range 1000).map fun (i : Nat) => histAt (999 - (i : Int))

/-- Helper: with the correct secret and a fresh timestamp, deserialization
of a serialized job succeeds and returns the job. -/
lemma deserialize_serialize_ok (hmacF : String → String → String) (j : Job) (s : String)
    (now : Int) (hfresh : |now - j.timestamp| ≤ 300) :
    deserialize_job hmacF (serialize_job hmacF j s) s now = .ok j := by
  have hns : ¬ (300 < |now - j.timestamp|) := not_lt.mpr hfresh
  simp [deserialize_job, serialize_job, verify_auth_hmac, hns]

/-- C3: for every job whose timestamp is within 300 s of the deserializer's
clock, `deserialize_job (serialize_job J s) s` with the correct group secret
returns a Job equal to J field by field (code bytes and file contents
included, since the payload carries them verbatim); for every wrong secret
s', one whose HMAC over `"job_id:timestamp"` differs, deserialization fails
with the invalid-HMAC authentication error, whatever the clock reads. -/
theorem c3_roundtrip_and_wrong_secret_fails (hmacF : String → String → String) (j : Job)
    (s s' : String) (now : Int)
    (hfresh : |now - j.timestamp| ≤ 300)
    (hwrong : hmacF s' (auth_message j.job_id j.timestamp) ≠
      hmacF s (auth_message j.job_id j.timestamp)) :
    deserialize_job hmacF (serialize_job hmacF j s) s now = .ok j ∧
    ∀ now2 : Int, deserialize_job hmacF (serialize_job hmacF j s) s' now2 =
      .error "Job authentication failed - invalid HMAC" := by
  refine ⟨deserialize_serialize_ok hmacF j s now hfresh, fun now2 => ?_⟩
  have hv : verify_auth_hmac hmacF (serialize_job hmacF j s).job_id
      (serialize_job hmacF j s).timestamp (serialize_job hmacF j s).auth.hmac s' = false := by
    simp [verify_auth_hmac, serialize_job, compute_auth_hmac]
    exact hwrong
  simp [deserialize_job, hv]

/-- Witness for C3 at a concrete job, correct secret "s" and wrong secret
"t". -/
theorem c3_roundtrip_and_wrong_secret_fails_witness :
    deserialize_job hmacDemo (serialize_job hmacDemo jobDemo "s") "s" 100 = .ok jobDemo ∧
    deserialize_job hmacDemo (serialize_job hmacDemo jobDemo "s") "t" 250 =
      .error "Job authentication failed - invalid HMAC" := by
  have h := c3_roundtrip_and_wrong_secret_fails hmacDemo jobDemo "s" "t" 100
    (by decide) (by decide)
  exact ⟨h.1, h.2 250⟩

/-- C10: the authentication HMAC covers only job_id and timestamp, so for
any two jobs that agree on those but differ elsewhere, the auth envelope
computed when serializing J1 verifies for J2's body: deserialization of
J2's payload carrying J1's envelope succeeds and returns J2. -/
theorem c10_auth_ignores_job_body (hmacF : String → String → String) (j1 j2 : Job)
    (s : String) (now : Int)
    (hid : j1.job_id = j2.job_id) (hts : j1.timestamp = j2.timestamp) (hne : j1 ≠ j2)
    (hfresh : |now - j2.timestamp| ≤ 300) :
    compute_auth_hmac hmacF j1.job_id j1.timestamp s =
      compute_auth_hmac hmacF j2.job_id j2.timestamp s ∧
    deserialize_job hmacF
      { serialize_job hmacF j2 s with auth := (serialize_job hmacF j1 s).auth } s now =
      .ok j2 := by
  have hauth : (serialize_job hmacF j1 s).auth = (serialize_job hmacF j2 s).auth := by
    simp [serialize_job, compute_auth_hmac, auth_message, hid, hts]
  constructor
  · rw [hid, hts]
  · rw [hauth]
    exact deserialize_serialize_ok hmacF j2 s now hfresh

/-- Witness for C10: `jobDemo` and `jobDemo2` share job_id and timestamp but
differ in sender and code; `jobDemo`'s envelope authenticates `jobDemo2`'s
body. -/
theorem c10_auth_ignores_job_body_witness :
    compute_auth_hmac hmacDemo jobDemo.job_id jobDemo.timestamp "s" =
      compute_auth_hmac hmacDemo jobDemo2.job_id jobDemo2.timestamp "s" ∧
    deserialize_job hmacDemo
      { serialize_job hmacDemo jobDemo2 "s" with
        auth := (serialize_job hmacDemo jobDemo "s").auth } "s" 100 = .ok jobDemo2 :=
  c10_auth_ignores_job_body hmacDemo jobDemo jobDemo2 "s" 100 rfl rfl
    (by decide) (by decide)

/-- C1: the kill handler answers `'1'` (and only then has issued a kill)
only if the HMAC verifies, the timestamp is within 300 s of the worker's
clock, a RunningJob with that job_id is present, and the stored sender
equals the requester (and the executor's kill succeeded); and for every
running job whose sender differs from the requester, the request is
answered `'0'` with no kill issued, even when the HMAC is valid. -/
theorem c1_kill_request_authorization (hmacF : String → String → String)
    (group_secret : String) (now : Int) (running : List (String × RunningJob))
    (killOk : String → Bool) (req : KillRequest) :
    ((handle_kill_request hmacF group_secret now running killOk req).1 = '1' →
      verify_auth_hmac hmacF req.job_id req.timestamp req.auth_hmac group_secret = true ∧
      |now - req.timestamp| ≤ 300 ∧
      ∃ rj, List.lookup req.job_id running = some rj ∧
        req.requester = rj.job.sender ∧ killOk req.job_id = true) ∧
    (∀ rj, List.lookup req.job_id running = some rj → req.requester ≠ rj.job.sender →
      handle_kill_request hmacF group_secret now running killOk req = ('0', false)) := by
  constructor
  · intro h1
    unfold handle_kill_request at h1
    split at h1
    · exact absurd h1 (by decide)
    · rename_i hv
      have hvt : verify_auth_hmac hmacF req.job_id req.timestamp req.auth_hmac group_secret
          = true := by
        rcases Bool.dichotomy
          (verify_auth_hmac hmacF req.job_id req.timestamp req.auth_hmac group_secret) with
          h | h
        · exact absurd h hv
        · exact h
      split at h1
      · exact absurd h1 (by decide)
      · rename_i hf
        split at h1
        · exact absurd h1 (by decide)
        · rename_i rj hrj
          split at h1
          · exact absurd h1 (by decide)
          · rename_i hs
            refine ⟨hvt, not_lt.mp hf, rj, hrj, not_not.mp hs, ?_⟩
            by_cases hk : killOk req.job_id
            · exact hk
            · rw [if_neg hk] at h1
              exact absurd h1 (by decide)
  · intro rj hrj hs
    simp [handle_kill_request, hrj, hs]

/-- Witness for C1: "mallory" sends a kill for alice's running job with a
valid HMAC and fresh timestamp; the reply is `'0'` and no kill is issued. -/
theorem c1_kill_request_authorization_witness :
    handle_kill_request hmacDemo "s" 100 [("ab12cd34", rjDemo)] (fun _ => true) killReqDemo =
      ('0', false) :=
  (c1_kill_request_authorization hmacDemo "s" 100 [("ab12cd34", rjDemo)] (fun _ => true)
    killReqDemo).2 rjDemo (by decide) (by decide)

/-- C2: the `Job` dataclass of jobs.py declares no `image` attribute and
`serialize_job` puts no `"image"` key on the wire, although worker.py line
307 and container.py lines 109/245 read `job.image` to launch the
container — those reads raise `AttributeError` on every job. -/
theorem c2_job_has_no_image_field :
    jobHasAttr "image" = false ∧
    jobPayloadKeys.contains "image" = false ∧
    jobHasAttr "job_id" = true ∧
    jobHasAttr "require_gpu" = true := by decide

/-- C4 counterexample: the GPU-support probe of `has_gpu_support` is a
container the executor starts (one of the three `containers.run` call
sites), and it carries none of the enforced constraints. -/
theorem c4_gpu_probe_container_unconstrained :
    gpu_probe_run_kwargs ∈ container_run_sites {} "python:3.11-slim" "ab12cd34" "e.py" [] false ∧
    gpu_probe_run_kwargs.read_only = false ∧
    gpu_probe_run_kwargs.cap_drop = none ∧
    gpu_probe_run_kwargs.security_opt = none ∧
    gpu_probe_run_kwargs.user = none ∧
    gpu_probe_run_kwargs.pids_limit = none ∧
    gpu_probe_run_kwargs.network_mode = none ∧
    gpu_probe_run_kwargs.tmpfs = none ∧
    gpu_probe_run_kwargs.environment = [] := by
  refine ⟨?_, rfl, rfl, rfl, rfl, rfl, rfl, rfl, rfl⟩
  simp [container_run_sites]

/-- C4 amended: every container started on the `execute` and
`execute_streaming` job paths carries all of the enforced constraints —
configured cpu and memory limits, the configured pids limit (100 in the
worker's config), read-only root, all capabilities dropped,
no-new-privileges, user 1000:1000, the configured network mode (default
"none"), a tmpfs at /tmp, and HOMIE_JOB_ID in the environment. The GPU
probe (see the counterexample) is the one container start outside these
paths. -/
theorem c4_execute_paths_constrained (cfg : ContainerConfig) (image jobId filename : String)
    (args : List String) (gpu : Bool) (cpu : Rat) (mem : String) (tmo : Int) (net : String) :
    enforced_constraints cfg jobId (execute_run_kwargs cfg image jobId filename args gpu) ∧
    enforced_constraints cfg jobId
      (execute_streaming_run_kwargs cfg image jobId filename args gpu) ∧
    (worker_container_config cpu mem tmo net).pids_limit = 100 ∧
    ({} : ContainerConfig).network_mode = "none" := by
  unfold enforced_constraints execute_run_kwargs execute_streaming_run_kwargs
  refine ⟨⟨rfl, rfl, rfl, rfl, rfl, rfl, rfl, rfl, rfl, ?_⟩,
    ⟨rfl, rfl, rfl, rfl, rfl, rfl, rfl, rfl, rfl, ?_⟩, rfl, rfl⟩
  · exact List.mem_cons_self _ _
  · exact List.mem_cons_self _ _

/-- C5: on a `'J'` connection the worker's error result — written when job
authentication fails or when the length prefix exceeds 100 MiB — is a bare
length-prefixed result with no `'R'` kind byte, while the success path does
write the `'R'` frame last and exactly once. -/
theorem c5_error_result_frame_lacks_kind_byte :
    handle_job_submission hmacDemo "s" 100 50 payloadBadAuth execDemo =
      [.resultBare (error_result "Job authentication failed - invalid HMAC")] ∧
    handle_job_submission hmacDemo "s" 100 (100 * 1024 * 1024 + 1)
      (serialize_job hmacDemo jobDemo "s") execDemo =
      [.resultBare (error_result "Job payload too large")] ∧
    (send_error "Job authentication failed - invalid HMAC").map OutFrame.beginsWithR =
      [false] ∧
    handle_job_submission hmacDemo "s" 100 50 (serialize_job hmacDemo jobDemo "s") execDemo =
      [.output 'O' "hi\n", .resultFramed resultDemo] := by decide

/-- C6: with `peer_timeout` configured to 20 s, a peer last seen 15 s ago —
alive by the claimed predicate `now - last_seen < peer_timeout` — is
reported dead by `is_alive` (which hardcodes 10 s), dropped by
`get_peers`/`get_peer`, and evicted by the reaper pass. -/
theorem c6_liveness_ignores_configured_timeout :
    ({ peer_timeout := 20 } : DiscoveryConfig).peer_timeout = 20 ∧
    (15 : Int) - peerStale.last_seen < ({ peer_timeout := 20 } : DiscoveryConfig).peer_timeout ∧
    Peer.is_alive 15 peerStale = false ∧
    get_peers 15 [("b", peerStale)] = [] ∧
    get_peer 15 [("b", peerStale)] "b" = none ∧
    cleanup_pass 15 [("b", peerStale)] = [] := by decide

/-- C7: a list request whose HMAC over `"list:0"` is valid is answered with
the full listing even when the worker's clock reads 1000 — the timestamp,
more than 300 s away, is never checked by the handler. -/
theorem c7_stale_list_token_accepted :
    300 < (1000 : Int) - listReqStale.timestamp ∧
    handle_list_request hmacDemo "s" 1000 [("ab12cd34", rjDemo)] listReqStale =
      .listing [⟨"ab12cd34", "alice", "e.py", 50⟩] := by decide

/-- C8: with the open mooch entry (start 1) and the open plug entry
(start 2) for job "j1" on file, the completion update patches the OLDER,
mooch-side entry (role is never consulted and the scan over the
newest-first list is reversed, hence oldest-first) and leaves the plug
entry open. -/
theorem c8_completion_patches_other_role_entry :
    update_job_completion 5 [moochEntry, plugEntry] "j1" 0 3 none 1 =
      [plugEntry, patch_completion_fields 5 0 3 none 1 moochEntry] ∧
    moochEntry.role = "mooch" ∧
    plugEntry.role = "plug" ∧
    (patch_completion_fields 5 0 3 none 1 moochEntry).end_time = some 5 ∧
    plugEntry.end_time = none := by decide

/-- C9: rewriting a newest-first list of 1001 records keeps the 1000 OLDEST
records and drops the newest one (`entries[-MAX:]` keeps the tail of the
list, but the list handed over by `read_history` is sorted newest first). -/
theorem c9_rewrite_drops_newest_record :
    (histAt 1000 :: oldEntries).length = 1001 ∧
    write_history (histAt 1000 :: oldEntries) = oldEntries ∧
    histAt 1000 ∉ oldEntries := by
  have hlen : oldEntries.length = 1000 := by
    unfold oldEntries
    rw [List.length_map, List.length_range]
  refine ⟨?_, ?_, ?_⟩
  · rw [List.length_cons, hlen]
  · unfold write_history
    rw [List.length_cons, hlen]
    norm_num [MAX_HISTORY_ENTRIES]
  · intro hmem
    simp only [oldEntries, List.mem_map, List.mem_range] at hmem
    obtain ⟨i, hi, heq⟩ := hmem
    have hst : (999 : Int) - (i : Int) = 1000 := congrArg HistoryEntry.start_time heq
    omega

end Homie
